import Mathlib

/-!
Verification of the jarvis-portable repository: a shallow embedding of the
battery manager, reasoning-core heuristics, code reviewer, router, working
memory and persistent store, with theorems settling the frozen claims.

Python strings are modelled as `List Char`; machine floats carrying battery
percentages and wall-clock seconds are modelled as rationals; SQLite rows are
modelled as Lean structures held in insertion-ordered lists; the impure clock
(`datetime.now()`) and generated identifiers (`uuid4`) are passed explicitly
as arguments.
-/

/-! ## String primitives -/

/-- Lower-casing of a Python string (`str.lower`), modelled per character.
`Char.toLower` lower-cases exactly the ASCII letters, which also matches
SQLite's default `LIKE` case folding. -/
def lowerStr (s : List Char) : List Char := s.map Char.toLower

/-- Python's substring operator `needle in hay` (case-sensitive). -/
def strContains (needle : List Char) : List Char → Bool
  | [] => needle.isEmpty
  | c :: t => needle.isPrefixOf (c :: t) || strContains needle t

/-- Lexicographic comparison of strings by code point, the order used both by
Python `str` comparison and by SQLite's BINARY collation on `TEXT`. -/
def strLe : List Char → List Char → Bool
  | [], _ => true
  | _ :: _, [] => false
  | a :: as, b :: bs => if a = b then strLe as bs else decide (a < b)

/-- Strict lexicographic comparison, derived from `strLe`. -/
def strLt (a b : List Char) : Bool := !(strLe b a)

/-- Insert one element into a list already sorted descending by the key `ts`
(an ISO timestamp string); the element goes before the first entry whose key
is `≤` its own, which makes the resulting sort stable, as Python's `sort` is. -/
def insertTsDesc (ts : α → List Char) (x : α) : List α → List α
  | [] => [x]
  | y :: ys => if strLe (ts y) (ts x) then x :: y :: ys else y :: insertTsDesc ts x ys

/-- Stable insertion sort, descending by timestamp key: the model for both
`ORDER BY timestamp DESC` and Python's `sort(key=timestamp, reverse=True)`. -/
def sortTsDesc (ts : α → List Char) : List α → List α
  | [] => []
  | x :: xs => insertTsDesc ts x (sortTsDesc ts xs)

/-! ## Battery manager (`src/core/battery_manager.py`) -/

/-- The four operating profiles (`ProfileType` in `battery_manager.py`). -/
inductive ProfileType
  | PERFORMANCE
  | BALANCED
  | ECO
  | CRITICAL
deriving DecidableEq

/-- The sensor reading as returned by `BatteryManager.get_battery_status`:
presence flag, percentage, and plugged flag (the `time_left` field plays no
role in the claims under study and is omitted). -/
structure BatteryStatus where
  present : Bool
  percent : ℚ
  plugged : Bool
deriving DecidableEq

/-- `BatteryManager.get_performance_profile`: profile as a function of the
current sensor reading. -/
def get_performance_profile (status : BatteryStatus) : ProfileType :=
  if status.plugged then ProfileType.PERFORMANCE
  else if !status.present then ProfileType.PERFORMANCE
  else
    let level := status.percent
    if level > 80 then ProfileType.PERFORMANCE
    else if level > 40 then ProfileType.BALANCED
    else if level > 20 then ProfileType.ECO
    else ProfileType.CRITICAL

/-- One entry of `BatteryManager.battery_history`, recorded on each profile
change: timestamp (wall-clock seconds), battery level, new profile, plugged. -/
structure HistoryEntry where
  timestamp : ℚ
  level : ℚ
  profile : ProfileType
  plugged : Bool
deriving DecidableEq

/-- The mutable state of a `BatteryManager`: current profile, time of the last
non-throttled check, and the bounded history (`__init__` starts with
`PERFORMANCE`, `last_check = now`, empty history). -/
structure BMState where
  current_profile : ProfileType
  last_check : ℚ
  battery_history : List HistoryEntry
deriving DecidableEq

/-- State of a freshly constructed `BatteryManager` at construction time `t0`. -/
def initBMState (t0 : ℚ) : BMState :=
  { current_profile := ProfileType.PERFORMANCE, last_check := t0, battery_history := [] }

/-- `BatteryManager.check_and_adapt`, with the wall clock `now` and the sensor
reading `status` passed explicitly (the Python reads the sensor through
`get_battery_status`, once for the profile and once for the history entry,
within one call; the reading is taken to be stable inside a call).
Returns the `True`/`False` result paired with the successor state. -/
def check_and_adapt (s : BMState) (now : ℚ) (status : BatteryStatus) : Bool × BMState :=
  if now - s.last_check < 60 then (false, s)
  else
    let s1 : BMState := { s with last_check := now }
    let new_profile := get_performance_profile status
    if new_profile ≠ s1.current_profile then
      let h1 := s1.battery_history ++
        [{ timestamp := now, level := status.percent, profile := new_profile,
           plugged := status.plugged : HistoryEntry }]
      let h2 := if h1.length > 100 then h1.drop (h1.length - 100) else h1
      (true, { s1 with current_profile := new_profile, battery_history := h2 })
    else
      (false, s1)

/-- Run a sequence of `check_and_adapt` calls (each given its clock value and
sensor reading) from a given state. -/
def runBM (s : BMState) : List (ℚ × BatteryStatus) → BMState
  | [] => s
  | (t, r) :: rest => runBM (check_and_adapt s t r).2 rest

/-- Spec-side battery profile, written from the spec's words: plugged or no
battery present gives PERFORMANCE; otherwise `p > 80` PERFORMANCE,
`40 < p ≤ 80` BALANCED, `20 < p ≤ 40` ECO, `p ≤ 20` CRITICAL. -/
def profileSpec (plugged present : Bool) (p : ℚ) : ProfileType :=
  if plugged = true ∨ present = false then ProfileType.PERFORMANCE
  else if 80 < p then ProfileType.PERFORMANCE
  else if 40 < p ∧ p ≤ 80 then ProfileType.BALANCED
  else if 20 < p ∧ p ≤ 40 then ProfileType.ECO
  else ProfileType.CRITICAL

/-! ## Reasoning core heuristics (`src/core/brain.py`) -/

/-- The fixed complex-keyword list of `JARVISBrainV3SDK._evaluate_complexity`,
in source order; note the French spelling `analyse`. -/
def complex_kw : List (List Char) :=
  ["pourquoi".data, "why".data, "comment".data, "how".data, "analyse".data,
   "architecture".data, "implement".data, "explain".data]

/-- The fixed simple-keyword list of `_evaluate_complexity`. -/
def simple_kw : List (List Char) :=
  ["bonjour".data, "hello".data, "what is".data, "qui est".data]

/-- `JARVISBrainV3SDK._evaluate_complexity`: base 5, plus length bonuses, plus
capped complex-keyword count, minus the simple-keyword penalty, clamped 0-10. -/
def evaluate_complexity (prompt : List Char) : Int :=
  let score : Int := 5
  let prompt_lower := lowerStr prompt
  let score := if prompt.length > 200 then score + 1 else score
  let score := if prompt.length > 500 then score + 1 else score
  let score := score + min ((complex_kw.countP (fun kw => strContains kw prompt_lower) : Int)) 3
  let score := if simple_kw.any (fun kw => strContains kw prompt_lower) then score - 2 else score
  max 0 (min 10 score)

/-- The claim's complex-keyword set, as the claim states it: with the English
spelling `analyze` (the set is unordered; the list order is immaterial). -/
def claim_complex_kw : List (List Char) :=
  ["pourquoi".data, "why".data, "comment".data, "how".data, "analyze".data,
   "architecture".data, "implement".data, "explain".data]

/-- The complexity score exactly as claim C2 states it: base 5, +1 when length
exceeds 200 and another +1 when it exceeds 500, plus one point per present
keyword of the claim's set (with `analyze`) capped at 3, minus 2 when a simple
keyword occurs in the lower-cased prompt, clamped to 0-10. -/
def complexityClaim (prompt : List Char) : Int :=
  let lengthBonus : Int :=
    (if prompt.length > 200 then 1 else 0) + (if prompt.length > 500 then 1 else 0)
  let keywordBonus : Int :=
    min ((claim_complex_kw.countP (fun kw => strContains kw (lowerStr prompt)) : Int)) 3
  let simplePenalty : Int :=
    if simple_kw.any (fun kw => strContains kw (lowerStr prompt)) then 2 else 0
  max 0 (min 10 (5 + lengthBonus + keywordBonus - simplePenalty))

/-- The complexity score as claim C2 must be amended: identical to
`complexityClaim` except that the keyword set carries the French spelling
`analyse` that the source actually uses, instead of `analyze`. -/
def complexityAmended (prompt : List Char) : Int :=
  let lengthBonus : Int :=
    (if prompt.length > 200 then 1 else 0) + (if prompt.length > 500 then 1 else 0)
  let keywordBonus : Int :=
    min ((complex_kw.countP (fun kw => strContains kw (lowerStr prompt)) : Int)) 3
  let simplePenalty : Int :=
    if simple_kw.any (fun kw => strContains kw (lowerStr prompt)) then 2 else 0
  max 0 (min 10 (5 + lengthBonus + keywordBonus - simplePenalty))

/-! ## Code reviewer (`src/agents/reviewer_agent.py`) -/

/-- Result record of `CodeReviewerAgent._review_code`. -/
structure ReviewResult where
  success : Bool
  score : Int
  issues : List (List Char)
  suggestions : List (List Char)
  approved : Bool
deriving DecidableEq

/-- `CodeReviewerAgent._review_code`: heuristic review starting from score 70
with four deductions; the returned score is floored at 0, while the
`approved` flag is computed from the pre-floor score variable, as in the
source. -/
def review_code (code : List Char) : ReviewResult :=
  let issues0 : List (List Char) := []
  let score0 : Int := 70
  let c_short := code.length < 10
  let issues1 := if c_short then issues0 ++ [("Code trop court".data)] else issues0
  let score1 := if c_short then score0 - 10 else score0
  let c_nofunc := !strContains ("def".data) code && !strContains ("function".data) code &&
    !strContains ("class".data) code
  let issues2 := if c_nofunc then issues1 ++ [("Pas de fonction/classe d\x65tect\x65e".data)]
    else issues1
  let score2 := if c_nofunc then score1 - 10 else score1
  let c_nodoc := !strContains ("# ".data) code && !strContains ("\"\"\"".data) code
  let issues3 := if c_nodoc then issues2 ++ [("Pas de commentaires/docstrings".data)] else issues2
  let score3 := if c_nodoc then score2 - 5 else score2
  let c_noimp := !strContains ("import".data) code
  let issues4 := if c_noimp then issues3 ++ [("Pas d\x27imports d\x65tect\x65s".data)] else issues3
  let score4 := if c_noimp then score3 - 5 else score3
  { success := true
    score := max 0 score4
    issues := issues4
    suggestions := [("Ajouter des docstrings".data), ("Ajouter des tests".data)]
    approved := decide (score4 ≥ 60) }

/-! ## Central router (`src/jarvis_router.py`) -/

/-- The four canonical expert agents the router can construct. -/
inductive AgentKind
  | dataEngineer
  | backendExpert
  | devopsSRE
  | aiEngineer
deriving DecidableEq

/-- An expert agent instance: an identity token (models Python object
identity; each construction yields a fresh one) plus its constructor class
and the display name passed to it. -/
structure Agent where
  inst_id : Nat
  kind : AgentKind
  agent_name : List Char
deriving DecidableEq

/-- Router state for agent loading: the `self.agents` cache (a Python dict,
modelled as an insertion-ordered association list keyed by the normalized
name) and the next fresh instance token. -/
structure RouterState where
  agents : List (List Char × Agent)
  next_inst : Nat
deriving DecidableEq

/-- A freshly constructed router (`self.agents = {}`). -/
def initRouter : RouterState := { agents := [], next_inst := 0 }

/-- Python dict lookup on the association-list model. -/
def lookupAgent : List (List Char × Agent) → List Char → Option Agent
  | [], _ => none
  | (k, v) :: rest, key => if k = key then some v else lookupAgent rest key

/-- Python `str.strip()`: drop leading and trailing whitespace. -/
def stripStr (s : List Char) : List Char :=
  ((s.dropWhile Char.isWhitespace).reverse.dropWhile Char.isWhitespace).reverse

/-- The router's name normalization: `agent_name.lower().strip()`. -/
def normalize_name (s : List Char) : List Char := stripStr (lowerStr s)

/-- Alias set for the Data Engineer agent. -/
def data_engineer_aliases : List (List Char) :=
  ["dataengineer".data, "data".data, "data_engineer".data]

/-- Alias set for the Backend Expert agent. -/
def backend_aliases : List (List Char) :=
  ["backend".data, "backendexpert".data, "backend_expert".data]

/-- Alias set for the DevOps/SRE agent. -/
def devops_aliases : List (List Char) :=
  ["devops".data, "sre".data, "devops_sre".data]

/-- Alias set for the AI Engineer agent. -/
def ai_aliases : List (List Char) :=
  ["ai".data, "aiengineer".data, "ai_engineer".data, "llm".data]

/-- All names accepted by `_load_agent`. -/
def valid_aliases : List (List Char) :=
  data_engineer_aliases ++ backend_aliases ++ devops_aliases ++ ai_aliases

/-- The `ValueError` message raised for an unknown agent name. -/
def unknown_agent_error (n : List Char) : List Char :=
  ("Unknown agent: ".data) ++ n ++ (". Available: dataengineer, backend, devops, ai".data)

/-- `JARVISRouter._load_agent`: normalize the name, return the cached instance
if the normalized name is a cache key, otherwise construct a fresh agent for a
recognized alias (caching it under the normalized name) or raise the
Invalid-Input error. The brain/start side effects carry no state relevant to
the claims and are omitted. -/
def load_agent (s : RouterState) (agent_name : List Char) :
    Except (List Char) (Agent × RouterState) :=
  let n := normalize_name agent_name
  match lookupAgent s.agents n with
  | some a => Except.ok (a, s)
  | none =>
    if n ∈ data_engineer_aliases then
      let a : Agent := { inst_id := s.next_inst, kind := AgentKind.dataEngineer,
                         agent_name := "DataEngineer".data }
      Except.ok (a, { agents := s.agents ++ [(n, a)], next_inst := s.next_inst + 1 })
    else if n ∈ backend_aliases then
      let a : Agent := { inst_id := s.next_inst, kind := AgentKind.backendExpert,
                         agent_name := "BackendExpert".data }
      Except.ok (a, { agents := s.agents ++ [(n, a)], next_inst := s.next_inst + 1 })
    else if n ∈ devops_aliases then
      let a : Agent := { inst_id := s.next_inst, kind := AgentKind.devopsSRE,
                         agent_name := "DevOpsSRE".data }
      Except.ok (a, { agents := s.agents ++ [(n, a)], next_inst := s.next_inst + 1 })
    else if n ∈ ai_aliases then
      let a : Agent := { inst_id := s.next_inst, kind := AgentKind.aiEngineer,
                         agent_name := "AIEngineer".data }
      Except.ok (a, { agents := s.agents ++ [(n, a)], next_inst := s.next_inst + 1 })
    else
      Except.error (unknown_agent_error n)

/-- Load `n1` from a fresh router, then `n2` from the resulting state,
returning the two agent instances when both loads succeed. -/
def load_two_agents (n1 n2 : List Char) : Option (Agent × Agent) :=
  match load_agent initRouter n1 with
  | Except.ok (a1, s1) =>
    match load_agent s1 n2 with
    | Except.ok (a2, _) => some (a1, a2)
    | Except.error _ => none
  | Except.error _ => none

/-! ## Timestamps (`datetime.now().isoformat()`) -/

/-- A Python `datetime` value, as far as `isoformat` is concerned. -/
structure DateTime where
  year : Nat
  month : Nat
  day : Nat
  hour : Nat
  minute : Nat
  second : Nat
  microsecond : Nat
deriving DecidableEq

/-- Two-digit zero-padded decimal rendering. -/
def pad2 (n : Nat) : List Char := [Nat.digitChar (n / 10 % 10), Nat.digitChar (n % 10)]

/-- Four-digit zero-padded decimal rendering. -/
def pad4 (n : Nat) : List Char :=
  [Nat.digitChar (n / 1000 % 10), Nat.digitChar (n / 100 % 10),
   Nat.digitChar (n / 10 % 10), Nat.digitChar (n % 10)]

/-- Six-digit zero-padded decimal rendering. -/
def pad6 (n : Nat) : List Char :=
  [Nat.digitChar (n / 100000 % 10), Nat.digitChar (n / 10000 % 10),
   Nat.digitChar (n / 1000 % 10), Nat.digitChar (n / 100 % 10),
   Nat.digitChar (n / 10 % 10), Nat.digitChar (n % 10)]

/-- `datetime.isoformat()`: `YYYY-MM-DDTHH:MM:SS` with a `.ffffff`
microsecond suffix exactly when the microsecond field is nonzero. -/
def isoformat (d : DateTime) : List Char :=
  pad4 d.year ++ '-' :: pad2 d.month ++ '-' :: pad2 d.day ++
  'T' :: pad2 d.hour ++ ':' :: pad2 d.minute ++ ':' :: pad2 d.second ++
  (if d.microsecond = 0 then [] else '.' :: pad6 d.microsecond)

/-- Recognizer for the two ISO-8601 shapes `isoformat` can produce
(with and without the microsecond suffix). -/
def isIso8601 (s : List Char) : Bool :=
  match s with
  | [y1, y2, y3, y4, a, m1, m2, b, d1, d2, c, h1, h2, e, n1, n2, f, s1, s2] =>
      y1.isDigit && y2.isDigit && y3.isDigit && y4.isDigit && (a == '-') &&
      m1.isDigit && m2.isDigit && (b == '-') && d1.isDigit && d2.isDigit &&
      (c == 'T') && h1.isDigit && h2.isDigit && (e == ':') && n1.isDigit && n2.isDigit &&
      (f == ':') && s1.isDigit && s2.isDigit
  | [y1, y2, y3, y4, a, m1, m2, b, d1, d2, c, h1, h2, e, n1, n2, f, s1, s2,
     g, u1, u2, u3, u4, u5, u6] =>
      y1.isDigit && y2.isDigit && y3.isDigit && y4.isDigit && (a == '-') &&
      m1.isDigit && m2.isDigit && (b == '-') && d1.isDigit && d2.isDigit &&
      (c == 'T') && h1.isDigit && h2.isDigit && (e == ':') && n1.isDigit && n2.isDigit &&
      (f == ':') && s1.isDigit && s2.isDigit &&
      (g == '.') && u1.isDigit && u2.isDigit && u3.isDigit && u4.isDigit &&
      u5.isDigit && u6.isDigit
  | _ => false

/-! ## Persistent store (`src/core/persistent_memory.py`) -/

/-- A metadata dict. The columns store `json.dumps(metadata or {})` and
readers apply `json.loads`; the Python-stdlib JSON round-trip is a faithful
codec external to this repository, so the embedding keeps the stored value
itself in the column. -/
abbrev Metadata := List (List Char × List Char)

/-- A row of the `consultations` table. -/
structure ConsultationRow where
  id : Nat
  agent_name : List Char
  query : List Char
  response : List Char
  importance : List Char
  metadata : Metadata
  timestamp : List Char
deriving DecidableEq

/-- A row of the `tasks` table (`result` is nullable). -/
structure TaskRow where
  id : Nat
  agent_name : List Char
  task_type : List Char
  description : List Char
  result : Option (List Char)
  status : List Char
  metadata : Metadata
  timestamp : List Char
deriving DecidableEq

/-- The persistent store: the two tables plus their auto-increment
counters. -/
structure Memory where
  consultations : List ConsultationRow
  tasks : List TaskRow
  next_consultation_id : Nat
  next_task_id : Nat
deriving DecidableEq

/-- A freshly created database (SQLite auto-increment ids start at 1). -/
def emptyMemory : Memory :=
  { consultations := [], tasks := [], next_consultation_id := 1, next_task_id := 1 }

/-- `PersistentMemory.remember_consultation`: insert one row with the event
timestamp taken from the clock at call time, returning `lastrowid`. -/
def remember_consultation (m : Memory) (agent_name query response importance : List Char)
    (metadata : Option Metadata) (now : DateTime) : Nat × Memory :=
  let row : ConsultationRow :=
    { id := m.next_consultation_id, agent_name := agent_name, query := query,
      response := response, importance := importance,
      metadata := metadata.getD [], timestamp := isoformat now }
  (m.next_consultation_id,
   { m with consultations := m.consultations ++ [row],
            next_consultation_id := m.next_consultation_id + 1 })

/-- `PersistentMemory.remember_task`: same pattern for the tasks table. -/
def remember_task (m : Memory) (agent_name task_type description : List Char)
    (result : Option (List Char)) (status : List Char)
    (metadata : Option Metadata) (now : DateTime) : Nat × Memory :=
  let row : TaskRow :=
    { id := m.next_task_id, agent_name := agent_name, task_type := task_type,
      description := description, result := result, status := status,
      metadata := metadata.getD [], timestamp := isoformat now }
  (m.next_task_id,
   { m with tasks := m.tasks ++ [row], next_task_id := m.next_task_id + 1 })

/-- A record returned by `recall_consultations` (metadata deserialized). -/
structure ConsultationRecord where
  id : Nat
  agent : List Char
  query : List Char
  response : List Char
  importance : List Char
  metadata : Metadata
  timestamp : List Char
deriving DecidableEq

/-- A record returned by `recall_tasks`. -/
structure TaskRecord where
  id : Nat
  agent : List Char
  task_type : List Char
  description : List Char
  result : Option (List Char)
  status : List Char
  metadata : Metadata
  timestamp : List Char
deriving DecidableEq

/-- The Python `if agent_name:` filter guard: the SQL condition is added only
for a truthy (non-None, non-empty) string. -/
def agentFilter (agent_name : Option (List Char)) (row_agent : List Char) : Bool :=
  match agent_name with
  | some (c :: rest) => decide (row_agent = c :: rest)
  | _ => true

/-- The `timestamp > cutoff` window filter added when `days` is not None; the
Python computes `cutoff = (now - timedelta(days=days)).isoformat()` and SQLite
compares the TEXT column lexicographically. The computed cutoff string is
passed in directly. -/
def cutoffFilter (days_cutoff : Option (List Char)) (row_ts : List Char) : Bool :=
  match days_cutoff with
  | some cutoff => strLt cutoff row_ts
  | none => true

/-- `PersistentMemory.recall_consultations`: filter by agent (only when
truthy) and time window, order newest-first, cap at `limit`, deserialize. -/
def recall_consultations (m : Memory) (agent_name : Option (List Char)) (limit : Nat)
    (days_cutoff : Option (List Char)) : List ConsultationRecord :=
  let rows := m.consultations.filter (fun r =>
    agentFilter agent_name r.agent_name && cutoffFilter days_cutoff r.timestamp)
  ((sortTsDesc (fun r : ConsultationRow => r.timestamp) rows).take limit).map
    (fun r => { id := r.id, agent := r.agent_name, query := r.query, response := r.response,
                importance := r.importance, metadata := r.metadata, timestamp := r.timestamp })

/-- `PersistentMemory.recall_tasks`: same pattern with the additional
task-type filter (also guarded by Python truthiness). -/
def recall_tasks (m : Memory) (agent_name : Option (List Char))
    (task_type : Option (List Char)) (limit : Nat)
    (days_cutoff : Option (List Char)) : List TaskRecord :=
  let rows := m.tasks.filter (fun r =>
    agentFilter agent_name r.agent_name && agentFilter task_type r.task_type &&
    cutoffFilter days_cutoff r.timestamp)
  ((sortTsDesc (fun r : TaskRow => r.timestamp) rows).take limit).map
    (fun r => { id := r.id, agent := r.agent_name, task_type := r.task_type,
                description := r.description, result := r.result, status := r.status,
                metadata := r.metadata, timestamp := r.timestamp })

/-- SQLite `LIKE` pattern matching (no ESCAPE clause): `%` matches any
sequence, `_` matches any single character, and any other pattern character
matches itself up to ASCII case folding. -/
def likeMatch : List Char → List Char → Bool
  | [], s => s.isEmpty
  | p :: ps, s =>
    if p = '%' then s.tails.any (fun t => likeMatch ps t)
    else if p = '_' then
      match s with
      | [] => false
      | _ :: t => likeMatch ps t
    else
      match s with
      | [] => false
      | c :: t => (p.toLower == c.toLower) && likeMatch ps t

/-- The store's search condition `field LIKE '%' || keyword || '%'`. -/
def likeContains (keyword field : List Char) : Bool :=
  likeMatch ('%' :: (keyword ++ ['%'])) field

/-- One merged search result, tagged `consultation` or `task` as the code's
`type` field does. -/
inductive SearchResult
  | consultation (agent query response timestamp : List Char)
  | task (agent task_type description : List Char) (result : Option (List Char))
      (timestamp : List Char)
deriving DecidableEq

/-- Timestamp of a search result (the Python sort key). -/
def SearchResult.ts : SearchResult → List Char
  | SearchResult.consultation _ _ _ t => t
  | SearchResult.task _ _ _ _ t => t

/-- `PersistentMemory.search`: LIKE-match each table independently (ordered
newest-first and capped at `limit` by the SQL), build tagged result records
(the consultation response always truncated to 200 characters plus an
ellipsis; a truthy task result likewise, a falsy one passed as None), merge,
re-sort by timestamp descending, and truncate to `limit` overall. -/
def search (m : Memory) (keyword : List Char) (limit : Nat) : List SearchResult :=
  let consRows := (sortTsDesc (fun r : ConsultationRow => r.timestamp)
    (m.consultations.filter (fun r =>
      likeContains keyword r.query || likeContains keyword r.response))).take limit
  let consResults := consRows.map (fun r =>
    SearchResult.consultation r.agent_name r.query
      (r.response.take 200 ++ ("...".data)) r.timestamp)
  let taskRows := (sortTsDesc (fun r : TaskRow => r.timestamp)
    (m.tasks.filter (fun r =>
      likeContains keyword r.description ||
      (match r.result with
       | some res => likeContains keyword res
       | none => false)))).take limit
  let taskResults := taskRows.map (fun r =>
    SearchResult.task r.agent_name r.task_type r.description
      (match r.result with
       | some [] => none
       | some res => some (res.take 200 ++ ("...".data))
       | none => none)
      r.timestamp)
  (sortTsDesc SearchResult.ts (consResults ++ taskResults)).take limit

/-- Case-insensitive substring matching — the claim's reading of the keyword
condition. -/
def substrCI (keyword field : List Char) : Bool :=
  strContains (lowerStr keyword) (lowerStr field)

/-- The search pipeline exactly as claim C3 describes it, with the keyword
condition read as a case-insensitive substring match (everything else as in
the code: independent per-table caps, merge, descending re-sort, overall
truncation, tagged records, 200-character previews with ellipsis, absent
previews for absent results). -/
def searchSpec (m : Memory) (keyword : List Char) (limit : Nat) : List SearchResult :=
  let consRows := (sortTsDesc (fun r : ConsultationRow => r.timestamp)
    (m.consultations.filter (fun r =>
      substrCI keyword r.query || substrCI keyword r.response))).take limit
  let consResults := consRows.map (fun r =>
    SearchResult.consultation r.agent_name r.query
      (r.response.take 200 ++ ("...".data)) r.timestamp)
  let taskRows := (sortTsDesc (fun r : TaskRow => r.timestamp)
    (m.tasks.filter (fun r =>
      substrCI keyword r.description ||
      (match r.result with
       | some res => substrCI keyword res
       | none => false)))).take limit
  let taskResults := taskRows.map (fun r =>
    SearchResult.task r.agent_name r.task_type r.description
      (match r.result with
       | some [] => none
       | some res => some (res.take 200 ++ ("...".data))
       | none => none)
      r.timestamp)
  (sortTsDesc SearchResult.ts (consResults ++ taskResults)).take limit

/-- A one-consultation database used to exhibit the LIKE-wildcard behaviour
of `search`. -/
def searchCexMemory : Memory where
  consultations :=
    [⟨1, "A".data, "hello".data, "world".data, "normal".data, [],
      ("2025-11-23T10:00:00".data)⟩]
  tasks := []
  next_consultation_id := 2
  next_task_id := 1

/-! ## Brain working memory (`src/core/brain.py`, fallback mode) -/

/-- One entry of the brain's fallback `working_memory` dict. -/
structure WMEntry where
  content : List Char
  importance : List Char
  metadata : Metadata
  timestamp : List Char
deriving DecidableEq

/-- The fallback working memory: a Python dict modelled as an
insertion-ordered association list. -/
abbrev WorkingMemory := List (List Char × WMEntry)

/-- Python dict lookup on the working memory. -/
def lookupWM : WorkingMemory → List Char → Option WMEntry
  | [], _ => none
  | (k, v) :: rest, key => if k = key then some v else lookupWM rest key

/-- Python dict item assignment: replace in place when the key exists,
otherwise append (insertion order preserved). -/
def dictInsertWM : WorkingMemory → List Char → WMEntry → WorkingMemory
  | [], key, e => [(key, e)]
  | (k, v) :: rest, key, e =>
    if k = key then (key, e) :: rest else (k, v) :: dictInsertWM rest key e

/-- `JARVISBrainV3SDK.remember` in fallback mode (no richer memory attached):
store the entry under the freshly generated identifier (`uuid4`, passed
explicitly) and return that identifier. -/
def brain_remember (wm : WorkingMemory) (memory_id content importance : List Char)
    (metadata : Option Metadata) (now_iso : List Char) : List Char × WorkingMemory :=
  (memory_id, dictInsertWM wm memory_id
    { content := content, importance := importance, metadata := metadata.getD [],
      timestamp := now_iso })

/-- A record returned by the fallback `recall`: the stored entry's fields
plus the entry's key and a fixed relevance score of 1.0. -/
structure RecallResult where
  content : List Char
  importance : List Char
  metadata : Metadata
  timestamp : List Char
  id : List Char
  score : ℚ
deriving DecidableEq

/-- The fallback `recall` match condition: the lower-cased query occurs in the
lower-cased stored content. -/
def wmMatches (q : List Char) (p : List Char × WMEntry) : Bool :=
  strContains (lowerStr q) (lowerStr p.2.content)

/-- `JARVISBrainV3SDK.recall` in fallback mode: collect matching entries in
insertion order, tag them with id and score 1.0, truncate to `limit`. -/
def brain_recall (wm : WorkingMemory) (q : List Char) (limit : Nat) : List RecallResult :=
  ((wm.filter (wmMatches q)).map (fun p =>
    { content := p.2.content, importance := p.2.importance, metadata := p.2.metadata,
      timestamp := p.2.timestamp, id := p.1, score := 1 })).take limit

/-- A one-entry working memory used to exhibit the `limit` truncation of
`brain_recall`. -/
def recallCexWM : WorkingMemory :=
  [(("k1".data), ⟨"hello".data, "normal".data, [], "t1".data⟩)]

/-- A two-record database (a consultation containing "Optimization", a task
containing "optimize") used as the concrete search witness. -/
def searchWitnessMemory : Memory where
  consultations :=
    [⟨1, "DataEngineer".data, "How to do Optimization?".data, "Use an index".data,
      "normal".data, [], ("2025-11-23T10:00:00".data)⟩]
  tasks :=
    [⟨1, "BackendExpert".data, "optimization".data, "optimize the database".data,
      some ("done".data), "completed".data, [], ("2025-11-23T11:00:00".data)⟩]
  next_consultation_id := 2
  next_task_id := 2

/-! # Theorems -/

/-- Claim C4: the battery performance profile is a pure function of the sensor
reading, with exactly the documented thresholds (percent 80 gives BALANCED,
40 gives ECO, 20 and 0 give CRITICAL). -/
theorem claim_C4_profile_pure_function (status : BatteryStatus) :
    get_performance_profile status = profileSpec status.plugged status.present status.percent := by
  unfold get_performance_profile profileSpec
  rcases status with ⟨present, percent, plugged⟩
  cases plugged <;> cases present <;> simp <;> split_ifs <;>
    first
      | rfl
      | ((exfalso; simp_all) <;> linarith)

/-- On a throttled call (less than 60 seconds since `last_check`),
`check_and_adapt` returns `False` and leaves the state untouched. -/
theorem check_and_adapt_throttled (s : BMState) (t : ℚ) (r : BatteryStatus)
    (h : t - s.last_check < 60) : check_and_adapt s t r = (false, s) := by
  unfold check_and_adapt
  simp [h]

/-- On a non-throttled call, the successor state's `last_check` is the call
time, whatever else happens. -/
theorem check_and_adapt_not_throttled_last_check (s : BMState) (t : ℚ) (r : BatteryStatus)
    (h : ¬ t - s.last_check < 60) : (check_and_adapt s t r).2.last_check = t := by
  unfold check_and_adapt
  rw [if_neg h]
  dsimp only
  split_ifs <;> rfl

/-- A call that reports a change was necessarily non-throttled, so it also
recorded the call time. -/
theorem check_and_adapt_true_last_check (s : BMState) (t : ℚ) (r : BatteryStatus)
    (h : (check_and_adapt s t r).1 = true) : (check_and_adapt s t r).2.last_check = t := by
  by_cases hthr : t - s.last_check < 60
  · rw [check_and_adapt_throttled s t r hthr] at h
    simp at h
  · exact check_and_adapt_not_throttled_last_check s t r hthr

/-- Claim C5, amended: two calls less than 60 seconds apart report a change at
most once; after a non-throttled call, any call within 60 seconds returns
false even when the recomputed profile differs; and a non-changing call
returns false leaving profile and history unchanged — but, contrary to the
claim's "without side effects", it still records the call time (see the
counterexample). -/
theorem claim_C5_throttle_amended :
    (∀ (s : BMState) (t1 t2 : ℚ) (r1 r2 : BatteryStatus), t2 - t1 < 60 →
      ¬((check_and_adapt s t1 r1).1 = true ∧
        (check_and_adapt (check_and_adapt s t1 r1).2 t2 r2).1 = true)) ∧
    (∀ (s : BMState) (t1 t2 : ℚ) (r1 r2 : BatteryStatus),
      60 ≤ t1 - s.last_check → t2 - t1 < 60 →
      (check_and_adapt (check_and_adapt s t1 r1).2 t2 r2).1 = false) ∧
    (∀ (s : BMState) (t : ℚ) (r : BatteryStatus),
      get_performance_profile r = s.current_profile →
      (check_and_adapt s t r).1 = false ∧
      (check_and_adapt s t r).2.current_profile = s.current_profile ∧
      (check_and_adapt s t r).2.battery_history = s.battery_history) := by
  refine ⟨?_, ?_, ?_⟩
  · intro s t1 t2 r1 r2 hwin hand
    obtain ⟨h1, h2⟩ := hand
    have hlc := check_and_adapt_true_last_check s t1 r1 h1
    have hthr : t2 - (check_and_adapt s t1 r1).2.last_check < 60 := by
      rw [hlc]; linarith
    rw [check_and_adapt_throttled _ t2 r2 hthr] at h2
    simp at h2
  · intro s t1 t2 r1 r2 h60 hwin
    have hnt : ¬ t1 - s.last_check < 60 := by linarith
    have hlc := check_and_adapt_not_throttled_last_check s t1 r1 hnt
    have hthr : t2 - (check_and_adapt s t1 r1).2.last_check < 60 := by
      rw [hlc]; linarith
    rw [check_and_adapt_throttled _ t2 r2 hthr]
  · intro s t r h
    by_cases hthr : t - s.last_check < 60
    · rw [check_and_adapt_throttled s t r hthr]
      exact ⟨rfl, rfl, rfl⟩
    · unfold check_and_adapt
      rw [if_neg hthr]
      dsimp only
      rw [if_neg (not_not_intro h)]
      exact ⟨rfl, rfl, rfl⟩

/-- Claim C5's final clause is false as stated: a call whose recomputed
profile equals the current one does have a side effect — it records the call
time and thereby resets the throttle window. Concretely, from a fresh manager
with `last_check = 0`, a no-change call at `t = 100` returns false but mutates
the state, and a subsequent changed-reading call at `t = 130` is throttled,
whereas without the intermediate call it would have reported the change. -/
theorem claim_C5_counterexample :
    (check_and_adapt (initBMState 0) 100 ⟨true, 100, true⟩).1 = false ∧
    (check_and_adapt (initBMState 0) 100 ⟨true, 100, true⟩).2 ≠ initBMState 0 ∧
    (check_and_adapt (check_and_adapt (initBMState 0) 100 ⟨true, 100, true⟩).2 130
      ⟨true, 10, false⟩).1 = false ∧
    (check_and_adapt (initBMState 0) 130 ⟨true, 10, false⟩).1 = true := by
  refine ⟨?_, ?_, ?_, ?_⟩ <;>
    norm_num [check_and_adapt, initBMState, get_performance_profile, BMState.mk.injEq] <;>
    decide

/-- Witness for claim C5: a concrete two-call run — a change reported at
`t = 100`, then a differing reading at `t = 130` is throttled to false. -/
theorem claim_C5_witness :
    (check_and_adapt (check_and_adapt (initBMState 0) 100 ⟨true, 50, false⟩).2 130
      ⟨true, 10, false⟩).1 = false :=
  claim_C5_throttle_amended.2.1 (initBMState 0) 100 130 ⟨true, 50, false⟩ ⟨true, 10, false⟩
    (by norm_num [initBMState]) (by norm_num)

/-- Each `check_and_adapt` call either leaves the history alone or replaces it
by the old history plus one appended entry with the oldest overflow dropped. -/
theorem check_and_adapt_history_shape (s : BMState) (t : ℚ) (r : BatteryStatus) :
    (check_and_adapt s t r).2.battery_history = s.battery_history ∨
    ∃ e, (check_and_adapt s t r).2.battery_history =
      (s.battery_history ++ [e]).drop (s.battery_history.length + 1 - 100) := by
  unfold check_and_adapt
  dsimp only
  split_ifs with h1 h2 h3
  · left; rfl
  · right
    refine ⟨{ timestamp := t, level := r.percent, profile := get_performance_profile r,
              plugged := r.plugged }, ?_⟩
    simp
  · right
    refine ⟨{ timestamp := t, level := r.percent, profile := get_performance_profile r,
              plugged := r.plugged }, ?_⟩
    have hz : s.battery_history.length + 1 - 100 = 0 := by
      simp at h3
      omega
    rw [hz, List.drop_zero]
  · left; rfl

/-- One `check_and_adapt` call preserves the 100-entry history bound. -/
theorem check_and_adapt_history_le (s : BMState) (t : ℚ) (r : BatteryStatus)
    (h : s.battery_history.length ≤ 100) :
    (check_and_adapt s t r).2.battery_history.length ≤ 100 := by
  rcases check_and_adapt_history_shape s t r with heq | ⟨e, heq⟩
  · rw [heq]; exact h
  · rw [heq]
    simp
    omega

/-- Any run of `check_and_adapt` calls preserves the history bound. -/
theorem runBM_history_le (calls : List (ℚ × BatteryStatus)) :
    ∀ s : BMState, s.battery_history.length ≤ 100 →
      (runBM s calls).battery_history.length ≤ 100 := by
  induction calls with
  | nil => intro s h; exact h
  | cons c rest ih =>
    intro s h
    obtain ⟨t, r⟩ := c
    exact ih _ (check_and_adapt_history_le s t r h)

/-- Claim C7: the profile-change history is bounded at 100 entries and trimmed
oldest-first — each call keeps the bound and only ever drops the oldest
entries, and any sequence of calls from a fresh manager stays within 100. -/
theorem claim_C7_history_bounded :
    (∀ (s : BMState) (t : ℚ) (r : BatteryStatus), s.battery_history.length ≤ 100 →
      (check_and_adapt s t r).2.battery_history.length ≤ 100 ∧
      ((check_and_adapt s t r).2.battery_history = s.battery_history ∨
       ∃ e, (check_and_adapt s t r).2.battery_history =
         (s.battery_history ++ [e]).drop (s.battery_history.length + 1 - 100))) ∧
    (∀ (t0 : ℚ) (calls : List (ℚ × BatteryStatus)),
      (runBM (initBMState t0) calls).battery_history.length ≤ 100) := by
  constructor
  · intro s t r h
    exact ⟨check_and_adapt_history_le s t r h, check_and_adapt_history_shape s t r⟩
  · intro t0 calls
    exact runBM_history_le calls _ (by simp [initBMState])

/-- Witness for claim C7 at a concrete state and reading. -/
theorem claim_C7_witness :
    (check_and_adapt (initBMState 0) 100 ⟨true, 50, false⟩).2.battery_history.length ≤ 100 ∧
    ((check_and_adapt (initBMState 0) 100 ⟨true, 50, false⟩).2.battery_history =
       (initBMState 0).battery_history ∨
     ∃ e, (check_and_adapt (initBMState 0) 100 ⟨true, 50, false⟩).2.battery_history =
       ((initBMState 0).battery_history ++ [e]).drop
         ((initBMState 0).battery_history.length + 1 - 100)) :=
  claim_C7_history_bounded.1 (initBMState 0) 100 ⟨true, 50, false⟩ (by decide)

/-- Claim C2 is false as stated: the source's keyword list carries the French
spelling `analyse`, not `analyze`, so the prompt "analyze the data" scores 5
under the code but 6 under the claim's formula. -/
theorem claim_C2_counterexample :
    evaluate_complexity ("analyze the data".data) = 5 ∧
    complexityClaim ("analyze the data".data) = 6 := by
  constructor <;> decide

/-- Claim C2, amended: the complexity score equals the claim's clamped formula
once the keyword set's `analyze` is replaced by the source's `analyse`. -/
theorem claim_C2_amended (prompt : List Char) :
    evaluate_complexity prompt = complexityAmended prompt := by
  unfold evaluate_complexity complexityAmended
  dsimp only
  split_ifs <;> omega

/-- Claim C9: the heuristic review score always lies in 40..70 (the four
deductions total at most 30 from base 70), the floor at zero never changes the
result (the returned score equals the un-floored sum), and the returned
`approved` flag agrees with `score ≥ 60` computed from the returned score. -/
theorem claim_C9_review_bounds (code : List Char) :
    40 ≤ (review_code code).score ∧
    (review_code code).score ≤ 70 ∧
    (review_code code).score =
      70 - (if code.length < 10 then 10 else 0)
         - (if (!strContains ("def".data) code && !strContains ("function".data) code &&
                !strContains ("class".data) code) then 10 else 0)
         - (if (!strContains ("# ".data) code && !strContains ("\"\"\"".data) code) then 5 else 0)
         - (if !strContains ("import".data) code then 5 else 0) ∧
    (review_code code).approved = decide ((review_code code).score ≥ 60) := by
  unfold review_code
  dsimp only
  split_ifs <;> refine ⟨by decide, by decide, by decide, by decide⟩

/-- Claim C1 is false as stated: two aliases of the same alias set loaded in
one router lifetime yield distinct agent instances, because the cache is
keyed by the normalized input string, not by the canonical agent; moreover
the Invalid-Input error names the lower-cased/trimmed input, not the exact
raw input string ("Chef" is reported as "chef"). -/
theorem claim_C1_counterexample :
    (load_two_agents ("dataengineer".data) ("data".data)).map (fun p => decide (p.1 = p.2)) =
      some false ∧
    load_agent initRouter ("Chef".data) = Except.error (unknown_agent_error ("chef".data)) ∧
    strContains ("Chef".data) (unknown_agent_error ("chef".data)) = false := by
  refine ⟨by decide, by rfl, by decide⟩

/-- Unfolding equation for `lookupAgent` at a cons cell. -/
theorem lookupAgent_cons (pk : List Char) (pv : Agent) (t : List (List Char × Agent))
    (k : List Char) :
    lookupAgent ((pk, pv) :: t) k = if pk = k then some pv else lookupAgent t k := rfl

/-- A dict entry survives appending further entries. -/
theorem lookupAgent_append_of_some (l l2 : List (List Char × Agent)) (k : List Char) (v : Agent)
    (h : lookupAgent l k = some v) : lookupAgent (l ++ l2) k = some v := by
  induction l with
  | nil => simp [lookupAgent] at h
  | cons p rest ih =>
    obtain ⟨pk, pv⟩ := p
    rw [lookupAgent_cons] at h
    rw [List.cons_append, lookupAgent_cons]
    by_cases hk : pk = k
    · simpa [hk] using h
    · rw [if_neg hk] at h ⊢
      exact ih h

/-- Looking up a freshly appended key finds its value when the key was
absent before. -/
theorem lookupAgent_append_self (l : List (List Char × Agent)) (k : List Char) (v : Agent)
    (h : lookupAgent l k = none) : lookupAgent (l ++ [(k, v)]) k = some v := by
  induction l with
  | nil => simp [lookupAgent]
  | cons p rest ih =>
    obtain ⟨pk, pv⟩ := p
    rw [lookupAgent_cons] at h
    rw [List.cons_append, lookupAgent_cons]
    by_cases hk : pk = k
    · simp [hk] at h
    · rw [if_neg hk] at h ⊢
      exact ih h

/-- After a successful load, the returned agent sits in the cache under the
normalized name. -/
theorem load_agent_ok_lookup (s : RouterState) (n : List Char) (a : Agent) (s' : RouterState)
    (h : load_agent s n = Except.ok (a, s')) :
    lookupAgent s'.agents (normalize_name n) = some a := by
  unfold load_agent at h
  dsimp only at h
  cases hl : lookupAgent s.agents (normalize_name n) with
  | some a0 =>
    rw [hl] at h
    simp only [Except.ok.injEq, Prod.mk.injEq] at h
    obtain ⟨rfl, rfl⟩ := h
    exact hl
  | none =>
    rw [hl] at h
    split_ifs at h <;> simp only [Except.ok.injEq, Prod.mk.injEq] at h
    all_goals obtain ⟨rfl, rfl⟩ := h
    all_goals exact lookupAgent_append_self _ _ _ hl

/-- A successful load never evicts a cached agent. -/
theorem load_agent_preserves (s : RouterState) (n : List Char) (a : Agent) (s' : RouterState)
    (k : List Char) (v : Agent) (h : load_agent s n = Except.ok (a, s'))
    (hk : lookupAgent s.agents k = some v) : lookupAgent s'.agents k = some v := by
  unfold load_agent at h
  dsimp only at h
  cases hl : lookupAgent s.agents (normalize_name n) with
  | some a0 =>
    rw [hl] at h
    simp only [Except.ok.injEq, Prod.mk.injEq] at h
    obtain ⟨rfl, rfl⟩ := h
    exact hk
  | none =>
    rw [hl] at h
    split_ifs at h <;> simp only [Except.ok.injEq, Prod.mk.injEq] at h
    all_goals obtain ⟨rfl, rfl⟩ := h
    all_goals exact lookupAgent_append_of_some _ _ _ _ hk

/-- A cache hit returns the cached instance and leaves the state unchanged. -/
theorem load_agent_cached (s : RouterState) (n : List Char) (a : Agent)
    (h : lookupAgent s.agents (normalize_name n) = some a) :
    load_agent s n = Except.ok (a, s) := by
  unfold load_agent
  dsimp only
  rw [h]

/-- Claim C1, amended: the router caches one instance per normalized
(lower-cased, trimmed) name, for the router's lifetime: loading any name with
the same normalized form as an already-loaded one returns the identity-same
cached instance with the state unchanged; loads never evict cache entries;
and a name whose normalized form is outside the four alias sets fails with
the Invalid-Input error naming the normalized input and the four valid keys.
(Distinct aliases of the same canonical agent yield distinct instances — see
the counterexample.) -/
theorem claim_C1_amended :
    (∀ (s : RouterState) (n1 n2 : List Char) (a : Agent) (s' : RouterState),
      normalize_name n1 = normalize_name n2 →
      load_agent s n1 = Except.ok (a, s') →
      load_agent s' n2 = Except.ok (a, s')) ∧
    (∀ (s : RouterState) (n : List Char) (a : Agent) (s' : RouterState)
      (k : List Char) (v : Agent),
      load_agent s n = Except.ok (a, s') →
      lookupAgent s.agents k = some v →
      lookupAgent s'.agents k = some v) ∧
    (∀ (s : RouterState) (n : List Char),
      normalize_name n ∉ valid_aliases →
      lookupAgent s.agents (normalize_name n) = none →
      load_agent s n = Except.error (unknown_agent_error (normalize_name n))) := by
  refine ⟨?_, ?_, ?_⟩
  · intro s n1 n2 a s' hnorm hload
    have hl := load_agent_ok_lookup s n1 a s' hload
    rw [hnorm] at hl
    exact load_agent_cached s' n2 a hl
  · intro s n a s' k v h hk
    exact load_agent_preserves s n a s' k v h hk
  · intro s n hvalid hnone
    unfold load_agent
    dsimp only
    rw [hnone]
    have h1 : normalize_name n ∉ data_engineer_aliases :=
      fun hm => hvalid (by simp [valid_aliases, List.mem_append, hm])
    have h2 : normalize_name n ∉ backend_aliases :=
      fun hm => hvalid (by simp [valid_aliases, List.mem_append, hm])
    have h3 : normalize_name n ∉ devops_aliases :=
      fun hm => hvalid (by simp [valid_aliases, List.mem_append, hm])
    have h4 : normalize_name n ∉ ai_aliases :=
      fun hm => hvalid (by simp [valid_aliases, List.mem_append, hm])
    rw [if_neg h1, if_neg h2, if_neg h3, if_neg h4]

/-- Witness for claim C1: with "dataengineer" already cached, loading the
alias "DataEngineer " (same normalized form) returns the identity-same
instance and leaves the router state unchanged. -/
theorem claim_C1_witness :
    load_agent
      { agents := [("dataengineer".data,
          { inst_id := 0, kind := AgentKind.dataEngineer, agent_name := "DataEngineer".data })],
        next_inst := 1 }
      ("DataEngineer ".data) =
    Except.ok
      (({ inst_id := 0, kind := AgentKind.dataEngineer,
          agent_name := "DataEngineer".data } : Agent),
       { agents := [("dataengineer".data,
           { inst_id := 0, kind := AgentKind.dataEngineer, agent_name := "DataEngineer".data })],
         next_inst := 1 }) :=
  claim_C1_amended.1 initRouter ("dataengineer".data) ("DataEngineer ".data)
    { inst_id := 0, kind := AgentKind.dataEngineer, agent_name := "DataEngineer".data }
    { agents := [("dataengineer".data,
        { inst_id := 0, kind := AgentKind.dataEngineer, agent_name := "DataEngineer".data })],
      next_inst := 1 }
    (by decide) (by rfl)

/-- Claim C8: an empty-string agent filter is skipped exactly like an absent
one (Python truthiness), so recall with an empty agent name returns records
of every agent. -/
theorem claim_C8_empty_agent_filter :
    (∀ (m : Memory) (limit : Nat) (cutoff : Option (List Char)),
      recall_consultations m (some []) limit cutoff =
        recall_consultations m none limit cutoff) ∧
    (∀ (m : Memory) (task_type : Option (List Char)) (limit : Nat)
       (cutoff : Option (List Char)),
      recall_tasks m (some []) task_type limit cutoff =
        recall_tasks m none task_type limit cutoff) := by
  constructor
  · intro m limit cutoff
    rfl
  · intro m task_type limit cutoff
    rfl

/-- `l.isPrefixOf []` agrees with `l.isEmpty`. -/
theorem isPrefixOf_nil_right (l : List Char) : l.isPrefixOf [] = l.isEmpty := by
  cases l <;> rfl

/-- The pattern `%` alone LIKE-matches every string. -/
theorem likeMatch_percent_nil (s : List Char) : likeMatch ['%'] s = true := by
  show s.tails.any (fun t => likeMatch [] t) = true
  apply List.any_eq_true.mpr
  exact ⟨[], (List.mem_tails _ _).mpr List.nil_suffix, rfl⟩

/-- Unfolding `likeMatch` at a non-wildcard pattern head, empty string. -/
theorem likeMatch_lit_nil (p : Char) (hp1 : p ≠ '%') (hp2 : p ≠ '_') (ps : List Char) :
    likeMatch (p :: ps) [] = false := by
  conv_lhs => unfold likeMatch
  rw [if_neg hp1, if_neg hp2]

/-- Unfolding `likeMatch` at a non-wildcard pattern head, nonempty string. -/
theorem likeMatch_lit_cons (p : Char) (hp1 : p ≠ '%') (hp2 : p ≠ '_')
    (ps : List Char) (c : Char) (t : List Char) :
    likeMatch (p :: ps) (c :: t) = ((p.toLower == c.toLower) && likeMatch ps t) := by
  conv_lhs => unfold likeMatch
  rw [if_neg hp1, if_neg hp2]

/-- A wildcard-free keyword followed by `%` LIKE-matches exactly the strings
whose lower-casing starts with the keyword's lower-casing. -/
theorem likeMatch_append_percent :
    ∀ (kw : List Char), (∀ c ∈ kw, c ≠ '%' ∧ c ≠ '_') →
      ∀ s, likeMatch (kw ++ ['%']) s = (lowerStr kw).isPrefixOf (lowerStr s) := by
  intro kw
  induction kw with
  | nil =>
    intro _ s
    simp only [List.nil_append]
    rw [likeMatch_percent_nil s]
    exact (List.isPrefixOf_nil_left).symm
  | cons k kw' ih =>
    intro hkw s
    have hk := hkw k (List.mem_cons_self k kw')
    have hkw' : ∀ c ∈ kw', c ≠ '%' ∧ c ≠ '_' :=
      fun c hc => hkw c (List.mem_cons_of_mem k hc)
    rw [List.cons_append]
    cases s with
    | nil =>
      rw [likeMatch_lit_nil k hk.1 hk.2]
      simp [lowerStr]
    | cons c t =>
      rw [likeMatch_lit_cons k hk.1 hk.2, ih hkw' t]
      simp only [lowerStr, List.map_cons, List.isPrefixOf_cons₂]

/-- For a wildcard-free keyword, the store's `LIKE '%kw%'` condition is the
case-insensitive substring test. -/
theorem likeContains_eq_substrCI (kw : List Char) (hkw : ∀ c ∈ kw, c ≠ '%' ∧ c ≠ '_') :
    ∀ f, likeContains kw f = substrCI kw f := by
  intro f
  induction f with
  | nil =>
    show ([] : List Char).tails.any (fun t => likeMatch (kw ++ ['%']) t) = _
    simp only [List.tails, List.any_cons, List.any_nil, Bool.or_false]
    rw [likeMatch_append_percent kw hkw []]
    show (lowerStr kw).isPrefixOf [] = substrCI kw []
    rw [isPrefixOf_nil_right]
    rfl
  | cons c t ih =>
    show (c :: t).tails.any (fun x => likeMatch (kw ++ ['%']) x) = _
    rw [List.tails_cons]
    simp only [List.any_cons]
    rw [likeMatch_append_percent kw hkw (c :: t)]
    have ht : t.tails.any (fun x => likeMatch (kw ++ ['%']) x) = likeContains kw t := rfl
    rw [ht, ih]
    rfl

/-- Claim C3 is false as stated for keywords carrying SQL wildcard
characters: searching for the one-character keyword `%` returns the stored
consultation although `%` is not a substring of either of its fields (the
code builds `LIKE '%kw%'`, so `%` and `_` in the keyword act as wildcards). -/
theorem claim_C3_counterexample :
    search searchCexMemory ("%".data) 10 =
      [SearchResult.consultation ("A".data) ("hello".data) ("world...".data)
        ("2025-11-23T10:00:00".data)] ∧
    substrCI ("%".data) ("hello".data) = false ∧
    substrCI ("%".data) ("world".data) = false := by
  refine ⟨by decide, by decide, by decide⟩

/-- Claim C3, amended: for keywords free of the SQL wildcard characters `%`
and `_`, `search` is exactly the claim's pipeline — case-insensitive
substring match independently against consultation query/response and task
description/result, each side capped at `limit`, merged, re-sorted descending
by timestamp, truncated to `limit`, correctly tagged, with 200-character
ellipsis previews. -/
theorem claim_C3_search_amended (m : Memory) (keyword : List Char) (limit : Nat)
    (hkw : ∀ c ∈ keyword, c ≠ '%' ∧ c ≠ '_') :
    search m keyword limit = searchSpec m keyword limit := by
  have key := likeContains_eq_substrCI keyword hkw
  unfold search searchSpec
  simp only [key]

/-- Witness for claim C3: on a database holding a consultation containing
"Optimization" and a task containing "optimize", searching "optim" follows
the claim's pipeline exactly. -/
theorem claim_C3_witness :
    search searchWitnessMemory ("optim".data) 10 =
      searchSpec searchWitnessMemory ("optim".data) 10 :=
  claim_C3_search_amended searchWitnessMemory ("optim".data) 10 (by decide)

/-- `Nat.digitChar` of a mod-10 value is a decimal digit. -/
theorem digitChar_mod_isDigit (n : Nat) : (Nat.digitChar (n % 10)).isDigit = true := by
  have h : n % 10 < 10 := Nat.mod_lt _ (by decide)
  set m := n % 10 with hm
  interval_cases m <;> decide

/-- Every string `isoformat` produces passes the ISO-8601 recognizer. -/
theorem isoformat_isIso8601 (d : DateTime) : isIso8601 (isoformat d) = true := by
  obtain ⟨y, mo, da, h, mi, s, us⟩ := d
  by_cases hus : us = 0
  · simp only [isoformat, pad4, pad2, pad6, hus, if_pos, List.cons_append, List.nil_append,
      List.append_nil]
    simp [isIso8601, digitChar_mod_isDigit]
  · simp only [isoformat, pad4, pad2, pad6, if_neg hus, List.cons_append, List.nil_append,
      List.append_nil]
    simp [isIso8601, digitChar_mod_isDigit]

/-- Inserting an element whose key is strictly greater than every key of a
list puts it at the head of the descending sort. -/
theorem sortTsDesc_append_max {α : Type} (ts : α → List Char) (x : α) :
    ∀ l : List α, (∀ y ∈ l, strLe (ts x) (ts y) = false) →
      sortTsDesc ts (l ++ [x]) = x :: sortTsDesc ts l := by
  intro l
  induction l with
  | nil => intro _; rfl
  | cons a rest ih =>
    intro h
    rw [List.cons_append]
    show insertTsDesc ts a (sortTsDesc ts (rest ++ [x])) = x :: sortTsDesc ts (a :: rest)
    rw [ih (fun y hy => h y (List.mem_cons_of_mem a hy))]
    have hxa := h a (List.mem_cons_self a rest)
    conv_lhs => unfold insertTsDesc
    rw [if_neg (by simp [hxa])]
    rfl

/-- The agent filter accepts the row written with exactly that agent name. -/
theorem agentFilter_self (agent : List Char) : agentFilter (some agent) agent = true := by
  cases agent with
  | nil => rfl
  | cons c rest => simp [agentFilter]

/-- Claim C6: a consultation written through `remember_consultation` is
returned by a subsequent `recall_consultations` for that agent (any limit at
least 1, no day window) with its query, response, importance and metadata
intact and an ISO-8601-parseable timestamp — provided the wall clock at the
write is strictly beyond every already-stored timestamp, as on a monotone
clock. -/
theorem claim_C6_roundtrip (m : Memory) (agent query response importance : List Char)
    (md : Metadata) (now : DateTime) (limit : Nat)
    (hlimit : 1 ≤ limit)
    (hfresh : ∀ r ∈ m.consultations, strLe (isoformat now) r.timestamp = false) :
    ∃ rec ∈ recall_consultations
        (remember_consultation m agent query response importance (some md) now).2
        (some agent) limit none,
      rec.query = query ∧ rec.response = response ∧ rec.importance = importance ∧
      rec.metadata = md ∧ isIso8601 rec.timestamp = true := by
  obtain ⟨lim, rfl⟩ : ∃ lim, limit = lim + 1 := ⟨limit - 1, by omega⟩
  unfold recall_consultations remember_consultation
  dsimp only
  rw [List.filter_append]
  rw [show List.filter
      (fun r : ConsultationRow =>
        agentFilter (some agent) r.agent_name && cutoffFilter none r.timestamp)
      [{ id := m.next_consultation_id, agent_name := agent, query := query,
         response := response, importance := importance, metadata := (some md).getD [],
         timestamp := isoformat now }] =
      [{ id := m.next_consultation_id, agent_name := agent, query := query,
         response := response, importance := importance, metadata := (some md).getD [],
         timestamp := isoformat now }] by
    simp [agentFilter_self, cutoffFilter]]
  rw [sortTsDesc_append_max (fun r : ConsultationRow => r.timestamp) _ _
    (fun y hy => hfresh y (List.mem_filter.mp hy).1)]
  rw [List.take_succ_cons, List.map_cons]
  exact ⟨_, List.mem_cons_self _ _, rfl, rfl, rfl, rfl, isoformat_isIso8601 now⟩

/-- Witness for claim C6: a concrete round-trip through an empty store. -/
theorem claim_C6_witness :
    ∃ rec ∈ recall_consultations
        (remember_consultation emptyMemory ("DataEngineer".data) ("q".data) ("r".data)
          ("high".data) (some [(("k".data), ("v".data))]) ⟨2025, 11, 23, 10, 0, 0, 0⟩).2
        (some ("DataEngineer".data)) 1 none,
      rec.query = ("q".data) ∧ rec.response = ("r".data) ∧ rec.importance = ("high".data) ∧
      rec.metadata = [(("k".data), ("v".data))] ∧ isIso8601 rec.timestamp = true :=
  claim_C6_roundtrip emptyMemory ("DataEngineer".data) ("q".data) ("r".data) ("high".data)
    [(("k".data), ("v".data))] ⟨2025, 11, 23, 10, 0, 0, 0⟩ 1 (by decide) (by decide)

/-- Claim C10 is false as stated: `recall` keeps the first `limit` matches in
dict insertion order, so with one older matching entry already stored,
remembering "hello2" and recalling "hello" with limit 1 returns only the
older record — the freshly stored content is absent even though the query is
a case-insensitive substring of it. -/
theorem claim_C10_counterexample :
    ¬(∃ r ∈ brain_recall
        (brain_remember recallCexWM ("k2".data) ("hello2".data) ("normal".data)
          none ("t2".data)).2
        ("hello".data) 1,
      r.content = ("hello2".data)) ∧
    strContains (lowerStr ("hello".data)) (lowerStr ("hello2".data)) = true := by
  constructor
  · decide
  · decide

/-- Python dict assignment with a fresh key appends the pair. -/
theorem dictInsertWM_fresh (wm : WorkingMemory) (k : List Char) (e : WMEntry)
    (h : lookupWM wm k = none) : dictInsertWM wm k e = wm ++ [(k, e)] := by
  induction wm with
  | nil => rfl
  | cons p rest ih =>
    obtain ⟨pk, pv⟩ := p
    rw [show lookupWM ((pk, pv) :: rest) k = if pk = k then some pv else lookupWM rest k
      from rfl] at h
    by_cases hk : pk = k
    · rw [if_pos hk] at h
      exact absurd h (by simp)
    · rw [if_neg hk] at h
      conv_lhs => unfold dictInsertWM
      rw [if_neg hk, ih h]
      rfl

/-- A mapped element appended behind fewer than `limit` filter survivors is
kept by the final truncation. -/
theorem mem_take_filter_map_append {α β : Type} (p : α → Bool) (f : α → β) (l : List α)
    (x : α) (limit : Nat) (hx : p x = true) (hlen : (l.filter p).length < limit) :
    f x ∈ ((List.filter p (l ++ [x])).map f).take limit := by
  rw [List.filter_append]
  rw [show List.filter p [x] = [x] by simp [hx]]
  rw [List.map_append]
  rw [List.take_all_of_le (by simp; omega)]
  exact List.mem_append_right _ (by simp)

/-- Claim C10, amended: in fallback working-memory mode, `remember` followed
by `recall(q, limit)` returns a record with the stored content and score
exactly 1.0 provided fewer than `limit` already-stored entries match `q`
(recall keeps the first `limit` matches in insertion order) and the generated
identifier is fresh; and each such `remember` grows the working-memory map by
exactly one entry. -/
theorem claim_C10_amended (wm : WorkingMemory) (memory_id content importance : List Char)
    (md : Option Metadata) (now_iso : List Char) (q : List Char) (limit : Nat)
    (hmatch : strContains (lowerStr q) (lowerStr content) = true)
    (hroom : (wm.filter (wmMatches q)).length < limit)
    (hfresh : lookupWM wm memory_id = none) :
    (∃ r ∈ brain_recall (brain_remember wm memory_id content importance md now_iso).2 q limit,
      r.content = content ∧ r.score = 1 ∧ r.id = memory_id) ∧
    (brain_remember wm memory_id content importance md now_iso).2.length = wm.length + 1 := by
  unfold brain_remember brain_recall
  dsimp only
  rw [dictInsertWM_fresh wm memory_id _ hfresh]
  refine ⟨⟨_, mem_take_filter_map_append (wmMatches q) _ wm _ limit hmatch hroom,
    rfl, rfl, rfl⟩, by simp⟩

/-- Witness for claim C10: a concrete remember/recall round-trip through an
empty working memory. -/
theorem claim_C10_witness :
    (∃ r ∈ brain_recall
        (brain_remember [] ("id1".data) ("say Hello there".data) ("normal".data)
          none ("t1".data)).2
        ("hello".data) 5,
      r.content = ("say Hello there".data) ∧ r.score = 1 ∧ r.id = ("id1".data)) ∧
    (brain_remember [] ("id1".data) ("say Hello there".data) ("normal".data)
      none ("t1".data)).2.length = ([] : WorkingMemory).length + 1 :=
  claim_C10_amended [] ("id1".data) ("say Hello there".data) ("normal".data) none
    ("t1".data) ("hello".data) 5 (by decide) (by decide) (by decide)
